import Mathlib

/-!
Shallow embedding of `src/redis-actor/src/actor.rs`: the Redis cache
backend actor, its builder, and its four message handlers (Get, Set,
Delete, Lock). Each handler body runs up to its single `query_async`
call; the embedding records the command it builds, the connection handle
it uses, and the pure mapping it applies to the backend's reply.
-/

namespace RedisCache

/-- A backend-side error produced by the client library
(`redis::RedisError`). Opaque here: only its identity matters, since the
actor forwards it unchanged. -/
structure RedisError where
  msg : String
deriving DecidableEq

/-- Modelled from the spec: the local error type lives in
`src/redis-actor/src/error.rs`, which is not under `src/`. Section 7 of
the spec gives exactly two cases: `Connection` (no usable backend handle
when a command was about to be issued) and a wrapper forwarding the
backend error verbatim. -/
inductive Error where
  | Connection : Error
  | Redis : RedisError → Error
deriving DecidableEq

/-- Modelled from the spec: the `From<RedisError>` conversion used by the
source as `Error::from` / `map_err(Error::from)` wraps the backend error
verbatim in the local error type. -/
def Error.fromRedis (e : RedisError) : Error :=
  Error.Redis e

/-- Opaque multiplexed connection handle
(`redis::aio::MultiplexedConnection`), cheaply cloneable. -/
structure MultiplexedConnection where
  id : Nat
deriving DecidableEq

/-- Cloning a multiplexed connection yields a handle to the same
session. -/
def MultiplexedConnection.clone (c : MultiplexedConnection) : MultiplexedConnection :=
  c

/-- Opaque client value returned by `redis::Client::open`. -/
structure Client where
  addr : String
deriving DecidableEq

/-- The actor state: the configured address string and the optional
connection handle (`None` until the connect attempt resolves). -/
structure RedisActor where
  connection_info : String
  connection : Option MultiplexedConnection
deriving DecidableEq

/-- The builder state: just the address string. -/
structure RedisActorBuilder where
  connection_info : String
deriving DecidableEq

/-- The `Default` impl for the builder: loopback address. -/
def RedisActorBuilder.default : RedisActorBuilder :=
  { connection_info := "redis://127.0.0.1/" }

/-- `RedisActorBuilder::build`: the connect lines in the source are
commented out, so it only copies the address and always succeeds with an
unset connection. -/
def RedisActorBuilder.build (b : RedisActorBuilder) : Except Error RedisActor :=
  Except.ok { connection_info := b.connection_info, connection := none }

/-- `RedisActor::new`: build from the default builder. -/
def RedisActor.new : Except Error RedisActor :=
  RedisActorBuilder.default.build

/-- `RedisActor::start`: the supervisor closure constructs the actor
with the given address and no connection. -/
def RedisActor.start (connection_info : String) : RedisActor :=
  { connection_info := connection_info, connection := none }

/-- A backend command under construction: `redis::cmd(name)` followed by
`.arg(..)` calls. Integer arguments are serialized in their decimal
form, as the client library does. -/
structure Cmd where
  name : String
  args : List String
deriving DecidableEq

/-- `redis::cmd(name)`: a command with no arguments yet. -/
def cmd (name : String) : Cmd :=
  { name := name, args := [] }

/-- `.arg(s)` with a string argument. -/
def Cmd.arg (c : Cmd) (a : String) : Cmd :=
  { c with args := c.args ++ [a] }

/-- `.arg(n)` with a `u32` argument, serialized to decimal. -/
def Cmd.argNat (c : Cmd) (n : Nat) : Cmd :=
  c.arg (toString n)

/-- Outcome of running one message handler body up to its single
`query_async` call: an immediate result with no backend command issued, a
panic (`Option::unwrap` on `None`), or a single issued command on a
cloned connection handle together with the pure mapping the handler
applies to the backend's reply (wire type `β`, result type `α`). -/
inductive HandlerStep (β α : Type) where
  | immediate (r : Except Error α)
  | panicked
  | query (con : MultiplexedConnection) (c : Cmd) (k : Except RedisError β → Except Error α)

/-- The list of backend commands a handler step issues: one for `query`,
none otherwise. -/
def HandlerStep.cmds {β α : Type} : HandlerStep β α → List Cmd
  | HandlerStep.query _ c _ => [c]
  | _ => []

/-- The connection handle a handler step uses, if it issues a command. -/
def HandlerStep.connOf {β α : Type} : HandlerStep β α → Option MultiplexedConnection
  | HandlerStep.query con _ _ => some con
  | _ => none

/-- Feed a backend reply (or backend error) to the handler's mapping;
`none` when the step issued no command. -/
def HandlerStep.onReply {β α : Type} :
    HandlerStep β α → Except RedisError β → Option (Except Error α)
  | HandlerStep.query _ _ k, r => some (k r)
  | _, _ => none

/-- The `Get` message. -/
structure Get where
  key : String

/-- The `Set` message; `ttl` is an optional `u32` expiry in seconds. -/
structure Set where
  key : String
  value : String
  ttl : Option Nat

/-- The `Delete` message. -/
structure Delete where
  key : String

/-- The `Lock` message; `ttl` is a mandatory `u32` expiry in seconds. -/
structure Lock where
  key : String
  ttl : Nat

/-- Result of a `Delete`: `Deleted(count)` or `Missing`. -/
inductive DeleteStatus where
  | Deleted : Nat → DeleteStatus
  | Missing : DeleteStatus
deriving DecidableEq

/-- Result of a `Lock`: `Acquired` or `Locked`. -/
inductive LockStatus where
  | Acquired : LockStatus
  | Locked : LockStatus
deriving DecidableEq

/-- `Handler<Get>`: if a connection is set, clone it and issue
`GET key`, forwarding the deserialized `Option<String>` reply and
wrapping backend errors via `Error::from`; otherwise immediately return
`Err(Error::Connection)`. -/
def RedisActor.handleGet (act : RedisActor) (msg : Get) :
    RedisActor × HandlerStep (Option String) (Option String) :=
  match act.connection with
  | some connection =>
    let con := connection.clone
    (act, HandlerStep.query con ((cmd "GET").arg msg.key)
      (fun r => r.mapError Error.fromRedis))
  | none => (act, HandlerStep.immediate (Except.error Error.Connection))

/-- `Handler<Set>`: if a connection is set, clone it, build
`SET key value`, append `EX ttl` to the same command when `ttl` is
present, issue it once, forwarding the confirmation string and wrapping
backend errors; otherwise immediately return `Err(Error::Connection)`. -/
def RedisActor.handleSet (act : RedisActor) (msg : Set) :
    RedisActor × HandlerStep String String :=
  match act.connection with
  | some connection =>
    let con := connection.clone
    let request := ((cmd "SET").arg msg.key).arg msg.value
    let request :=
      match msg.ttl with
      | some ttl => (request.arg "EX").argNat ttl
      | none => request
    (act, HandlerStep.query con request (fun r => r.mapError Error.fromRedis))
  | none => (act, HandlerStep.immediate (Except.error Error.Connection))

/-- `Handler<Delete>`: the source runs `self.connection.clone().unwrap()`
with no `None` check, so a missing connection panics; otherwise it issues
`DEL key` once and maps the removed-count `res` to `Deleted(res)` when
`res > 0` and to `Missing` otherwise, wrapping backend errors. -/
def RedisActor.handleDelete (act : RedisActor) (msg : Delete) :
    RedisActor × HandlerStep Nat DeleteStatus :=
  match act.connection with
  | some connection =>
    let con := connection.clone
    (act, HandlerStep.query con ((cmd "DEL").arg msg.key)
      (fun r =>
        (r.map (fun res =>
          if res > 0 then DeleteStatus.Deleted res else DeleteStatus.Missing)).mapError
          Error.fromRedis))
  | none => (act, HandlerStep.panicked)

/-- `Handler<Lock>`: the source runs `self.connection.clone().unwrap()`
with no `None` check, so a missing connection panics; otherwise it issues
`SET lock::key "" NX EX ttl` once and maps a non-nil reply to `Acquired`
and a nil reply to `Locked`, wrapping backend errors. -/
def RedisActor.handleLock (act : RedisActor) (msg : Lock) :
    RedisActor × HandlerStep (Option String) LockStatus :=
  match act.connection with
  | some connection =>
    let con := connection.clone
    (act, HandlerStep.query con
      ((((((cmd "SET").arg ("lock::" ++ msg.key)).arg "").arg "NX").arg "EX").argNat msg.ttl)
      (fun r =>
        (r.map (fun res =>
          if res.isSome then LockStatus.Acquired else LockStatus.Locked)).mapError
          Error.fromRedis))
  | none => (act, HandlerStep.panicked)

/-- Outcome of the `started` lifecycle hook. -/
inductive StartOutcome where
  | panicked : StartOutcome
  | ok (act : RedisActor) : StartOutcome
deriving DecidableEq

/-- `Actor::started`: open a client for the configured address (the
source calls `.unwrap()` on `Client::open`, so an open failure panics),
then await the multiplexed connection: on success store the handle in
`connection`; on failure log the error and leave the state unchanged.
The two `Except` arguments stand for the results of the two fallible
library calls. -/
def RedisActor.startedStep (act : RedisActor) (openRes : Except RedisError Client)
    (connectRes : Except RedisError MultiplexedConnection) : StartOutcome :=
  match openRes with
  | Except.error _ => StartOutcome.panicked
  | Except.ok _ =>
    match connectRes with
    | Except.ok con => StartOutcome.ok { act with connection := some con }
    | Except.error _ => StartOutcome.ok act

/-- Modelled from the spec: the backend key-value store is an external
collaborator (excluded from the repository); a store maps keys to their
values. Expiry is not modelled (real time is outside the embedding). -/
abbrev Store := String → Option String

/-- Store after a write of `value` under `key`. -/
def Store.insert (s : Store) (key value : String) : Store :=
  fun k => if k = key then some value else s k

/-- Store after a removal of `key`. -/
def Store.erase (s : Store) (key : String) : Store :=
  fun k => if k = key then none else s k

/-- A deserialized backend reply, at the types the handlers request. -/
inductive Reply where
  | optStr (r : Option String)
  | str (r : String)
  | num (n : Nat)
deriving DecidableEq

/-- Modelled from the spec: section 6 fixes the exact outbound commands
(`GET key`, `SET key value [EX ttl]`, `DEL key`, `SET lock::key "" NX EX ttl`)
and sections 3 and 4 their replies; this gives each such command its
reply and its effect on the store. Commands outside that list are not
modelled. -/
def runCmd (s : Store) : Cmd → Option (Store × Reply)
  | { name := "GET", args := [k] } => some (s, Reply.optStr (s k))
  | { name := "SET", args := [k, v] } => some (s.insert k v, Reply.str "OK")
  | { name := "SET", args := [k, v, "EX", _t] } => some (s.insert k v, Reply.str "OK")
  | { name := "SET", args := [k, v, "NX", "EX", _t] } =>
    match s k with
    | none => some (s.insert k v, Reply.optStr (some "OK"))
    | some _ => some (s, Reply.optStr none)
  | { name := "DEL", args := [k] } =>
    some (s.erase k, Reply.num (if (s k).isSome then 1 else 0))
  | _ => none

/-- Claim C1: at a concrete disconnected actor the Delete handler does
not return the Connection error: the embedded body reaches the
`Option::unwrap` panic, while the Get handler at the same state does
return `Err(Error::Connection)` immediately and issues no command. -/
theorem c1_disconnected_delete_panics :
    ((RedisActor.mk "redis://127.0.0.1/" none).handleDelete ⟨"k"⟩).2 =
      HandlerStep.panicked ∧
    ((RedisActor.mk "redis://127.0.0.1/" none).handleGet ⟨"k"⟩).2 =
      HandlerStep.immediate (Except.error Error.Connection) :=
  ⟨rfl, rfl⟩

/-- Claim C2: the actor is not panic-free: at a concrete disconnected
actor the Lock handler reaches the `Option::unwrap` panic. A connect
failure proper is indeed absorbed, leaving the state unchanged, as the
second conjunct shows. -/
theorem c2_disconnected_lock_panics :
    ((RedisActor.mk "redis://127.0.0.1/" none).handleLock ⟨"k", 1⟩).2 =
      HandlerStep.panicked ∧
    (RedisActor.mk "redis://127.0.0.1/" none).startedStep
      (Except.ok ⟨"redis://127.0.0.1/"⟩) (Except.error ⟨"connection refused"⟩) =
      StartOutcome.ok (RedisActor.mk "redis://127.0.0.1/" none) :=
  ⟨rfl, rfl⟩

/-- Claim C3: with a connection set, the Delete handler issues exactly
the one command `DEL key` and maps the backend's removed-count `n` to
`Deleted n` when `n > 0` and to `Missing` when `n = 0`, the count
carried in `Deleted` being the backend's reply unchanged. -/
theorem c3_delete_single_del_and_mapping (info : String)
    (con : MultiplexedConnection) (key : String) (n : Nat) :
    ((RedisActor.mk info (some con)).handleDelete ⟨key⟩).2.cmds =
      [Cmd.mk "DEL" [key]] ∧
    ((RedisActor.mk info (some con)).handleDelete ⟨key⟩).2.onReply (Except.ok n) =
      some (Except.ok
        (if n > 0 then DeleteStatus.Deleted n else DeleteStatus.Missing)) :=
  ⟨rfl, rfl⟩

/-- Claim C4: with a connection set, the Lock handler issues exactly the
one command `SET lock::key "" NX EX ttl` and returns `Acquired` if and
only if the backend's reply is non-nil, `Locked` otherwise. -/
theorem c4_lock_single_setnx_and_mapping (info : String)
    (con : MultiplexedConnection) (key : String) (ttl : Nat) (r : Option String) :
    ((RedisActor.mk info (some con)).handleLock ⟨key, ttl⟩).2.cmds =
      [Cmd.mk "SET" ["lock::" ++ key, "", "NX", "EX", toString ttl]] ∧
    ((RedisActor.mk info (some con)).handleLock ⟨key, ttl⟩).2.onReply (Except.ok r) =
      some (Except.ok
        (if r.isSome then LockStatus.Acquired else LockStatus.Locked)) :=
  ⟨rfl, rfl⟩

/-- Claim C5: with a connection set, the Set handler issues exactly one
`SET` command carrying the key and value, with `EX ttl` appended to that
same single command exactly when `ttl` is present, and returns the
backend's confirmation string unchanged on success. -/
theorem c5_set_single_cmd_with_optional_expiry (info : String)
    (con : MultiplexedConnection) (key value : String) (ttl : Option Nat)
    (reply : String) :
    ((RedisActor.mk info (some con)).handleSet ⟨key, value, ttl⟩).2.cmds =
      [Cmd.mk "SET" ([key, value] ++
        match ttl with
        | some t => ["EX", toString t]
        | none => [])] ∧
    ((RedisActor.mk info (some con)).handleSet ⟨key, value, ttl⟩).2.onReply
      (Except.ok reply) = some (Except.ok reply) := by
  cases ttl <;> exact ⟨rfl, rfl⟩

/-- Claim C6: with a connection set, the Get handler leaves the actor
state unchanged and issues exactly the one command `GET key`; that
command leaves any backend store unchanged and replies with the stored
value, and the handler forwards that reply unchanged: `some value` when
the key is present, `none` when absent. -/
theorem c6_get_read_only (info : String) (con : MultiplexedConnection)
    (key : String) (store : Store) :
    ((RedisActor.mk info (some con)).handleGet ⟨key⟩).1 =
      RedisActor.mk info (some con) ∧
    ((RedisActor.mk info (some con)).handleGet ⟨key⟩).2.cmds =
      [Cmd.mk "GET" [key]] ∧
    runCmd store (Cmd.mk "GET" [key]) = some (store, Reply.optStr (store key)) ∧
    ((RedisActor.mk info (some con)).handleGet ⟨key⟩).2.onReply
      (Except.ok (store key)) = some (Except.ok (store key)) :=
  ⟨rfl, rfl, rfl, rfl⟩

/-- Claim C7: with a connection set, every handler issues exactly one
command (no retry) and, on any backend error, returns that error wrapped
as `Error.Redis` — never a substituted default value. -/
theorem c7_backend_error_forwarded (info : String)
    (con : MultiplexedConnection) (key value : String) (ttl : Option Nat)
    (lttl : Nat) (e : RedisError) :
    ((RedisActor.mk info (some con)).handleGet ⟨key⟩).2.onReply (Except.error e) =
      some (Except.error (Error.Redis e)) ∧
    ((RedisActor.mk info (some con)).handleSet ⟨key, value, ttl⟩).2.onReply
      (Except.error e) = some (Except.error (Error.Redis e)) ∧
    ((RedisActor.mk info (some con)).handleDelete ⟨key⟩).2.onReply
      (Except.error e) = some (Except.error (Error.Redis e)) ∧
    ((RedisActor.mk info (some con)).handleLock ⟨key, lttl⟩).2.onReply
      (Except.error e) = some (Except.error (Error.Redis e)) ∧
    ((RedisActor.mk info (some con)).handleGet ⟨key⟩).2.cmds.length = 1 ∧
    ((RedisActor.mk info (some con)).handleSet ⟨key, value, ttl⟩).2.cmds.length = 1 ∧
    ((RedisActor.mk info (some con)).handleDelete ⟨key⟩).2.cmds.length = 1 ∧
    ((RedisActor.mk info (some con)).handleLock ⟨key, lttl⟩).2.cmds.length = 1 := by
  cases ttl <;> exact ⟨rfl, rfl, rfl, rfl, rfl, rfl, rfl, rfl⟩

/-- Claim C8: no message handler changes the actor state, in any
connection state; a connected handler uses the stored handle's clone;
the connect step on success replaces only the `connection` field
(keeping `connection_info`), and on connect failure changes nothing. -/
theorem c8_handlers_frame_connect_writes (act : RedisActor)
    (con con2 : MultiplexedConnection) (client : Client) (e : RedisError)
    (key value : String) (ttl : Option Nat) (lttl : Nat) :
    (act.handleGet ⟨key⟩).1 = act ∧
    (act.handleSet ⟨key, value, ttl⟩).1 = act ∧
    (act.handleDelete ⟨key⟩).1 = act ∧
    (act.handleLock ⟨key, lttl⟩).1 = act ∧
    ((RedisActor.mk act.connection_info (some con)).handleGet ⟨key⟩).2.connOf =
      some con.clone ∧
    act.startedStep (Except.ok client) (Except.ok con2) =
      StartOutcome.ok { act with connection := some con2 } ∧
    act.startedStep (Except.ok client) (Except.error e) = StartOutcome.ok act := by
  obtain ⟨ci, co⟩ := act
  cases co <;> cases ttl <;> exact ⟨rfl, rfl, rfl, rfl, rfl, rfl, rfl⟩

/-- Claim C9: the default builder carries the loopback address
`redis://127.0.0.1/`; building uses exactly the builder's address, and
`start` uses exactly its address argument. -/
theorem c9_address_configuration (b : RedisActorBuilder) (info : String) :
    RedisActorBuilder.default.connection_info = "redis://127.0.0.1/" ∧
    b.build = Except.ok (RedisActor.mk b.connection_info none) ∧
    (RedisActor.start info).connection_info = info :=
  ⟨rfl, rfl, rfl⟩

/-- Claim C10: `build` (and hence `new`) always returns `Ok` with the
connection unset, for every address, and on the actor it returns the Get
and Set handlers find no connection and answer `Err(Error::Connection)`
at once (Delete and Lock find none as well and reach their unwrap). -/
theorem c10_build_always_ok_unconnected (b : RedisActorBuilder) (key : String) :
    b.build = Except.ok (RedisActor.mk b.connection_info none) ∧
    RedisActor.new = Except.ok (RedisActor.mk "redis://127.0.0.1/" none) ∧
    ((RedisActor.mk b.connection_info none).handleGet ⟨key⟩).2 =
      HandlerStep.immediate (Except.error Error.Connection) ∧
    ((RedisActor.mk b.connection_info none).handleSet ⟨key, "", none⟩).2 =
      HandlerStep.immediate (Except.error Error.Connection) ∧
    ((RedisActor.mk b.connection_info none).handleDelete ⟨key⟩).2 =
      HandlerStep.panicked :=
  ⟨rfl, rfl, rfl, rfl, rfl⟩

end RedisCache
